import Mathlib

/-!
Shallow embedding of the shuttle axum-wasm runtime
(src/runtime/src/axum/mod.rs) and proofs about its spec claims.

The embedding models:
* the per-request bridge Router::handle_request (session construction,
  IPC write/read order, the 64 KiB body-size gate, failure outcomes),
* the service wrapper in run_until_stopped that maps bridge errors to
  HTTP 500 responses,
* the lifecycle controller AxumWasm (load / start / subscribe_logs / stop)
  with its Mutex<Option<...>> take-semantics fields.

External effects (wasmtime, WASI, unix sockets, rmp codecs) are modelled by
boolean success flags and by an abstract guest behaviour function; channel
and store identities are modelled by a fresh-name counter so that session
freshness is expressible.
-/

namespace ShuttleAxum

/-- The fixed descriptor numbers handed to the guest (const LOGS_FD etc.). -/
def LOGS_FD : Nat := 20

/-- PARTS_FD constant from the source. -/
def PARTS_FD : Nat := 3

/-- BODY_WRITE_FD constant from the source. -/
def BODY_WRITE_FD : Nat := 4

/-- BODY_READ_FD constant from the source. -/
def BODY_READ_FD : Nat := 5

/-- The request-body ceiling: 1024 * 64 bytes, from the comparison
`body_size > 1024 * 64` in handle_request. -/
def BODY_SIZE_LIMIT : Nat := 1024 * 64

/-- u64::MAX, the value substituted when the body size hint has no upper
bound (`body.size_hint().upper().unwrap_or(u64::MAX)`). -/
def U64_MAX : Nat := 2 ^ 64 - 1

/-- Request metadata (hyper request parts: method, uri, headers), the data
serialised by RequestWrapper::from(parts).into_rmp(). -/
structure ReqParts where
  method : String
  uri : String
  headers : List (String × String)
deriving DecidableEq, Repr

/-- An inbound HTTP request: parts, the size hint upper bound
(`body.size_hint().upper()`), and the actual body bytes. -/
structure HttpRequest where
  parts : ReqParts
  bodyUpper : Option Nat
  body : List Nat
deriving DecidableEq, Repr

/-- Response metadata produced by the guest on the parts channel
(ResponseWrapper). `buildOk` models whether
`wrapper.into_response_builder().body(body)` succeeds. -/
structure RespParts where
  status : Nat
  buildOk : Bool
deriving DecidableEq, Repr

/-- An outbound HTTP response as seen by the front door: status and the
fully drained body bytes. -/
structure HttpResponse where
  status : Nat
  body : List Nat
deriving DecidableEq, Repr

/-- body_size as computed in handle_request:
`body.size_hint().upper().unwrap_or(u64::MAX)`. -/
def body_size (req : HttpRequest) : Nat :=
  req.bodyUpper.getD U64_MAX

/-- Success flags for the fallible host-side operations of one
handle_request run, in source order. Each `false` stands for the
corresponding call returning Err. -/
structure IpcEnv where
  wasiOk : Bool
  linkOk : Bool
  logsPairOk : Bool
  partsPairOk : Bool
  bodyWritePairOk : Bool
  bodyReadPairOk : Bool
  partsWriteOk : Bool
  bodyToBytesOk : Bool
  bodyWriteOk : Bool
deriving DecidableEq, Repr

/-- The flags for every fallible step up to and including the request-parts
write, i.e. everything handle_request does before the body-size check. -/
def IpcEnv.setupOk (env : IpcEnv) : Bool :=
  env.wasiOk && env.linkOk && env.logsPairOk && env.partsPairOk &&
    env.bodyWritePairOk && env.bodyReadPairOk && env.partsWriteOk

/-- All host-side flags at once: a run with no host-side I/O failure. -/
def IpcEnv.allOk (env : IpcEnv) : Bool :=
  env.setupOk && env.bodyToBytesOk && env.bodyWriteOk

/-- Behaviour of the loaded wasm module as handle_request observes it:
whether the export named in `linker.get(&mut store, "axum",
"__SHUTTLE_Axum_call")` exists, whether it is a function, whether the
`typed` signature check passes, and what the guest does when called:
`Except.error` is a trap/panic inside the guest; an `Option.none` first
component means the bytes the guest wrote to the parts channel do not
deserialize as response parts. -/
structure Guest where
  hasExport : Bool
  isFunc : Bool
  typedOk : Bool
  run : ReqParts → List Nat → Except String (Option RespParts × List Nat)

/-- Observable IPC steps of one handle_request run, recorded when the step
completes. -/
inductive IpcEvent where
  | writeParts (parts : ReqParts)
  | readReqBody (bytes : List Nat)
  | writeBody (bytes : List Nat)
  | closeBodyWrite
  | invokeGuest (logsFd partsFd bodyWriteFd bodyReadFd : Nat)
  | readRespParts (parts : RespParts)
  | readRespBody (bytes : List Nat)
deriving DecidableEq, Repr

/-- Outcome of one handle_request run: `ok` is the Ok(response) path, `err`
is the anyhow::Result Err path (mapped to HTTP 500 by the service), and
`panicked` is an `.expect(...)` panic, which aborts the request task
without producing any response. -/
inductive Outcome where
  | ok (resp : HttpResponse)
  | err (msg : String)
  | panicked (msg : String)
deriving DecidableEq, Repr

/-- Host allocation state: a fresh-name counter for stores, WASI contexts
and channel pairs. -/
structure HostState where
  ctr : Nat
deriving DecidableEq, Repr

/-- One sandbox session: the identities of the WASI context, the wasmtime
store and the four unix-stream channel pairs created by handle_request. -/
structure Session where
  wasiId : Nat
  storeId : Nat
  logsCh : Nat
  partsCh : Nat
  bodyWriteCh : Nat
  bodyReadCh : Nat
deriving DecidableEq, Repr

/-- All identities of a session as a list. -/
def Session.ids (s : Session) : List Nat :=
  [s.wasiId, s.storeId, s.logsCh, s.partsCh, s.bodyWriteCh, s.bodyReadCh]

/-- Allocate a brand-new session: six fresh identities taken from the
counter. Models `WasiCtxBuilder::new()...build()`, `Store::new`, and the
four `UnixStream::pair()` calls at the top of handle_request. -/
def newSession (st : HostState) : Session × HostState :=
  ({ wasiId := st.ctr, storeId := st.ctr + 1, logsCh := st.ctr + 2,
     partsCh := st.ctr + 3, bodyWriteCh := st.ctr + 4,
     bodyReadCh := st.ctr + 5 },
   { ctr := st.ctr + 6 })

/-- The session a handle_request call starting from state `st` creates. -/
def sessionOf (st : HostState) : Session :=
  (newSession st).1

/-- The guest-invocation tail of handle_request: look up the
__SHUTTLE_Axum_call export (`.expect` panics when it is absent or not a
function), check its type, call it with the four descriptor numbers, then
decode the response parts and read the response body. `t` is the IPC trace
accumulated so far. -/
def invokeStage (guest : Guest) (req : HttpRequest) (t : List IpcEvent) :
    Outcome × List IpcEvent :=
  if guest.hasExport = false then
    (.panicked
      "wasm module should be loaded and the router function should be available",
      t)
  else if guest.isFunc = false then
    (.panicked "router function should be a function", t)
  else if guest.typedOk = false then
    (.err "typed signature mismatch", t)
  else
    let t4 := t ++
      [IpcEvent.invokeGuest LOGS_FD PARTS_FD BODY_WRITE_FD BODY_READ_FD]
    match guest.run req.parts req.body with
    | .error msg => (.err msg, t4)
    | .ok (none, _) => (.err "failed to deserialize response parts", t4)
    | .ok (some rp, respBody) =>
      let t5 := t4 ++
        [IpcEvent.readRespParts rp, IpcEvent.readRespBody respBody]
      if rp.buildOk = false then
        (.err "failed to construct http response", t5)
      else (.ok { status := rp.status, body := respBody }, t5)

/-- The body-handling middle of handle_request: gate on the declared or
observed body size (u64::MAX when unknown), read the body into memory,
write it to body-write, drop that stream to signal EOF, then invoke the
guest. -/
def bodyStage (env : IpcEnv) (guest : Guest) (req : HttpRequest)
    (t : List IpcEvent) : Outcome × List IpcEvent :=
  if body_size req > BODY_SIZE_LIMIT then
    (.ok { status := 413, body := [] }, t)
  else if env.bodyToBytesOk = false then
    (.err "failed to concatenate request body buffers", t)
  else
    let t2 := t ++ [IpcEvent.readReqBody req.body]
    if env.bodyWriteOk = false then
      (.err "failed to write body to wasm", t2)
    else
      invokeStage guest req
        (t2 ++ [IpcEvent.writeBody req.body, IpcEvent.closeBodyWrite])

/-- The body of Router::handle_request after session construction, in
source order: build the WASI context, link the module, open the four
channel pairs, write the request parts, then hand over to the body and
guest stages. Returns the outcome together with the trace of completed
IPC steps. -/
def handleCore (env : IpcEnv) (guest : Guest) (req : HttpRequest) :
    Outcome × List IpcEvent :=
  if env.wasiOk = false then (.err "failed to read args", [])
  else if env.linkOk = false then (.err "failed to link module", [])
  else if env.logsPairOk = false then
    (.err "failed to open logs unixstream", [])
  else if env.partsPairOk = false then
    (.err "failed to open parts unixstream", [])
  else if env.bodyWritePairOk = false then
    (.err "failed to open body write unixstream", [])
  else if env.bodyReadPairOk = false then
    (.err "failed to open body read unixstream", [])
  else if env.partsWriteOk = false then
    (.err "failed to write http parts to wasm", [])
  else bodyStage env guest req [IpcEvent.writeParts req.parts]

/-- Router::handle_request: construct a fresh session, run the bridge body,
return outcome, IPC trace and the advanced allocation state. -/
def handle_request (env : IpcEnv) (guest : Guest) (req : HttpRequest)
    (st : HostState) : Outcome × List IpcEvent × HostState :=
  ((handleCore env guest req).1, (handleCore env guest req).2,
    (newSession st).2)

/-- The per-request service closure inside run_until_stopped: Ok responses
pass through, Err becomes HTTP 500 with an empty body, and a panic aborts
the task so no response is produced at all. -/
def service_response (env : IpcEnv) (guest : Guest) (req : HttpRequest)
    (st : HostState) : Option HttpResponse :=
  match (handle_request env guest req st).1 with
  | .ok r => some r
  | .err _ => some { status := 500, body := [] }
  | .panicked _ => none

/-- Does the trace contain a guest invocation? -/
def IpcEvent.isInvokeGuest : IpcEvent → Bool
  | .invokeGuest _ _ _ _ => true
  | _ => false

/-- Does the trace contain a request-body read (hyper body::to_bytes)? -/
def IpcEvent.isReadReqBody : IpcEvent → Bool
  | .readReqBody _ => true
  | _ => false

/-- True when the guest entry point was invoked during the run. -/
def guestInvoked (tr : List IpcEvent) : Bool :=
  tr.any IpcEvent.isInvokeGuest

/-- True when the request body was read during the run. -/
def reqBodyRead (tr : List IpcEvent) : Bool :=
  tr.any IpcEvent.isReadReqBody

/-- The compiled guest artifact together with linker and engine
(struct Router in the source); opaque here, identified by a tag. -/
structure Router where
  moduleId : Nat
deriving DecidableEq, Repr

/-- Lifecycle errors, named after the taxonomy in the spec; each maps to
one Status message in the source:
notLoaded is internal "tried to start a service that was not loaded",
alreadySubscribed is internal "logs have already been subscribed to",
notRunning is internal "trying to stop a service that was not started",
shutdownFailed is internal "failed to stop deployment",
compile carries the RouterBuilder::build error, and
invalidServiceName is the ServiceName::from_str failure in stop. -/
inductive RtError where
  | notLoaded
  | alreadySubscribed
  | notRunning
  | shutdownFailed
  | compile (msg : String)
  | invalidServiceName
deriving DecidableEq, Repr

/-- Controller state (struct AxumWasm). `router` is the
Mutex<Option<Router>> slot; `logs_rx` holds the log receiver until
subscribe_logs takes it (the payload is an identity tag for the receiver);
`kill_tx` holds the oneshot sender once start has run, with the boolean
recording whether its receiver is still alive (held by a live server
task). -/
structure AxumWasm where
  router : Option Router
  logs_rx : Option Nat
  kill_tx : Option Bool
deriving DecidableEq, Repr

/-- AxumWasm::new: no router, receiver number 0 present, no kill sender. -/
def AxumWasm.new : AxumWasm :=
  { router := none, logs_rx := some 0, kill_tx := none }

/-- Runtime::load. The compile argument stands for the result of
`RouterBuilder::new()?.src(path).build()`; the router slot is overwritten
only after compilation succeeds. -/
def AxumWasm.load (s : AxumWasm) (compile : Except String Router) :
    Except RtError Unit × AxumWasm :=
  match compile with
  | .error msg => (.error (.compile msg), s)
  | .ok r => (.ok (), { s with router := some r })

/-- Runtime::start. In source order: a fresh oneshot channel is created
and the kill_tx slot is overwritten *before* the router slot is checked.
When the router is absent the function returns early and the local
receiver is dropped, so the stored sender points at a dead receiver
(`some false`); on success the receiver is moved into the spawned server
task (`some true`) and the router is taken out of its slot. -/
def AxumWasm.start (s : AxumWasm) : Except RtError Unit × AxumWasm :=
  match s.router with
  | none => (.error .notLoaded, { s with kill_tx := some false })
  | some _ => (.ok (), { s with router := none, kill_tx := some true })

/-- The spawned server task finishing on its own (hyper server future
completes), which drops the kill receiver while the sender may still be
stored. -/
def AxumWasm.serverStops (s : AxumWasm) : AxumWasm :=
  { s with kill_tx := s.kill_tx.map (fun _ => false) }

/-- Runtime::subscribe_logs: take() the receiver out of its slot; a
present receiver is returned as the stream, an empty slot is the
already-subscribed error. -/
def AxumWasm.subscribe_logs (s : AxumWasm) : Except RtError Nat × AxumWasm :=
  match s.logs_rx with
  | some rx => (.ok rx, { s with logs_rx := none })
  | none => (.error .alreadySubscribed, s)

/-- Runtime::stop. `nameOk` models ServiceName::from_str succeeding, which
happens before any state is touched. Then the kill sender is take()n out
of its slot: an empty slot is the not-running error; a present sender is
consumed either way, and the send fails exactly when the receiver is
already gone. -/
def AxumWasm.stop (s : AxumWasm) (nameOk : Bool) :
    Except RtError Unit × AxumWasm :=
  if nameOk = false then (.error .invalidServiceName, s)
  else
    match s.kill_tx with
    | none => (.error .notRunning, s)
    | some alive =>
      if alive then (.ok (), { s with kill_tx := none })
      else (.error .shutdownFailed, { s with kill_tx := none })

/-! Concrete fixtures used by witnesses and counterexamples. -/

/-- A sample set of request parts. -/
def reqParts0 : ReqParts :=
  { method := "GET", uri := "/hello", headers := [] }

/-- An environment in which every host-side operation succeeds. -/
def envAllOk : IpcEnv :=
  { wasiOk := true, linkOk := true, logsPairOk := true, partsPairOk := true,
    bodyWritePairOk := true, bodyReadPairOk := true, partsWriteOk := true,
    bodyToBytesOk := true, bodyWriteOk := true }

/-- A well-behaved guest that answers every request with status 200 and a
fixed body. -/
def echoGuest (fixed : List Nat) : Guest :=
  { hasExport := true, isFunc := true, typedOk := true,
    run := fun _ _ => .ok (some { status := 200, buildOk := true }, fixed) }

/-- A guest module that does not export __SHUTTLE_Axum_call. -/
def guestNoExport : Guest :=
  { hasExport := false, isFunc := true, typedOk := true,
    run := fun _ _ => .ok (some { status := 200, buildOk := true }, []) }

/-- Initial allocation state. -/
def st0 : HostState := { ctr := 0 }

/-- A request with a declared 3-byte body. -/
def smallReq : HttpRequest :=
  { parts := reqParts0, bodyUpper := some 3, body := [1, 2, 3] }

/-- A 3-byte request whose size hint has no upper bound. -/
def noHintReq : HttpRequest :=
  { parts := reqParts0, bodyUpper := none, body := [1, 2, 3] }

/-! The claims. -/

/-- C1: a request whose declared or observed body-size upper bound exceeds
65536 bytes never has its body read and never reaches the guest entry
point, and (whenever the session setup and the parts write themselves
succeed) handle_request returns HTTP 413 with an empty body. -/
theorem c1_oversized_body_rejected (env : IpcEnv) (guest : Guest)
    (st : HostState) (p : ReqParts) (b : List Nat) (n : Nat)
    (hn : BODY_SIZE_LIMIT < n) :
    guestInvoked (handle_request env guest ⟨p, some n, b⟩ st).2.1 = false ∧
    reqBodyRead (handle_request env guest ⟨p, some n, b⟩ st).2.1 = false ∧
    (env.setupOk = true →
      (handle_request env guest ⟨p, some n, b⟩ st).1 =
        .ok { status := 413, body := [] }) := by
  have hsize : body_size ⟨p, some n, b⟩ > BODY_SIZE_LIMIT := hn
  obtain ⟨w, lk, lp, pp, bw, br, pw, bt, bwr⟩ := env
  cases w <;> cases lk <;> cases lp <;> cases pp <;> cases bw <;> cases br <;>
    cases pw <;>
    simp [handle_request, handleCore, bodyStage, IpcEnv.setupOk, guestInvoked,
      reqBodyRead, IpcEvent.isInvokeGuest, IpcEvent.isReadReqBody, hsize]

/-- Witness for C1 at a concrete oversized request. -/
theorem c1_witness :
    BODY_SIZE_LIMIT < 65537 ∧
    guestInvoked
        (handle_request envAllOk (echoGuest [7]) ⟨reqParts0, some 65537, []⟩ st0).2.1
      = false ∧
    reqBodyRead
        (handle_request envAllOk (echoGuest [7]) ⟨reqParts0, some 65537, []⟩ st0).2.1
      = false ∧
    (handle_request envAllOk (echoGuest [7]) ⟨reqParts0, some 65537, []⟩ st0).1 =
      .ok { status := 413, body := [] } :=
  have h :=
    c1_oversized_body_rejected envAllOk (echoGuest [7]) st0 reqParts0 [] 65537
      (by decide)
  ⟨by decide, h.1, h.2.1, h.2.2 rfl⟩

/-- C2 counterexample: a request whose body is 3 bytes (well under 65536)
but whose size hint declares no upper bound is answered with 413 and the
guest is never invoked, because handle_request substitutes u64::MAX for a
missing upper bound. This refutes the claim that requests without a
declared upper bound still reach the guest. -/
theorem c2_counterexample :
    (handle_request envAllOk (echoGuest [7]) noHintReq st0).1 =
      .ok { status := 413, body := [] } ∧
    guestInvoked (handle_request envAllOk (echoGuest [7]) noHintReq st0).2.1 =
      false ∧
    reqBodyRead (handle_request envAllOk (echoGuest [7]) noHintReq st0).2.1 =
      false := by
  refine ⟨rfl, rfl, rfl⟩

/-- C2 (amended): for every request whose body-size upper bound is declared
and at most 65536 bytes, when no host-side I/O step fails the body is read
and the guest is invoked, and a well-behaved guest that echoes status 200
and a fixed body yields exactly that status and body. Requests without a
declared upper bound are rejected with 413 instead. -/
theorem c2_small_declared_body_reaches_guest (env : IpcEnv) (st : HostState)
    (p : ReqParts) (b : List Nat) (n : Nat) (fixed : List Nat)
    (hn : n ≤ BODY_SIZE_LIMIT) (henv : env.allOk = true) :
    (handle_request env (echoGuest fixed) ⟨p, some n, b⟩ st).1 =
      .ok { status := 200, body := fixed } ∧
    guestInvoked
      (handle_request env (echoGuest fixed) ⟨p, some n, b⟩ st).2.1 = true ∧
    reqBodyRead
      (handle_request env (echoGuest fixed) ⟨p, some n, b⟩ st).2.1 = true := by
  have hsize : ¬ body_size ⟨p, some n, b⟩ > BODY_SIZE_LIMIT := by
    have : body_size ⟨p, some n, b⟩ = n := rfl
    omega
  obtain ⟨w, lk, lp, pp, bw, br, pw, bt, bwr⟩ := env
  simp only [IpcEnv.allOk, IpcEnv.setupOk, Bool.and_eq_true] at henv
  obtain ⟨⟨⟨⟨⟨⟨⟨⟨hw, hlk⟩, hlp⟩, hpp⟩, hbw⟩, hbr⟩, hpw⟩, hbt⟩, hbwr⟩ := henv
  subst hw hlk hlp hpp hbw hbr hpw hbt hbwr
  simp [handle_request, handleCore, bodyStage, invokeStage, hsize, echoGuest,
    guestInvoked, reqBodyRead, IpcEvent.isInvokeGuest, IpcEvent.isReadReqBody]

/-- Witness for C2 (amended) at a concrete small request. -/
theorem c2_witness :
    3 ≤ BODY_SIZE_LIMIT ∧ envAllOk.allOk = true ∧
    ((handle_request envAllOk (echoGuest [7, 8]) ⟨reqParts0, some 3, [1, 2, 3]⟩ st0).1 =
      .ok { status := 200, body := [7, 8] } ∧
    guestInvoked
      (handle_request envAllOk (echoGuest [7, 8])
        ⟨reqParts0, some 3, [1, 2, 3]⟩ st0).2.1 = true ∧
    reqBodyRead
      (handle_request envAllOk (echoGuest [7, 8])
        ⟨reqParts0, some 3, [1, 2, 3]⟩ st0).2.1 = true) :=
  ⟨by decide, rfl,
    c2_small_declared_body_reaches_guest envAllOk st0 reqParts0 [1, 2, 3] 3
      [7, 8] (by decide) rfl⟩

/-! Helper lemmas characterising the stages of handle_request. -/

/-- When some setup step fails, handle_request stops with an error before
any IPC step completes; when setup succeeds it proceeds to the body stage
with exactly the request parts written. -/
theorem handleCore_setup (env : IpcEnv) (guest : Guest) (req : HttpRequest) :
    (env.setupOk = false →
      (handleCore env guest req).2 = [] ∧
      ∃ msg, (handleCore env guest req).1 = .err msg) ∧
    (env.setupOk = true →
      handleCore env guest req =
        bodyStage env guest req [IpcEvent.writeParts req.parts]) := by
  obtain ⟨w, lk, lp, pp, bw, br, pw, bt, bwr⟩ := env
  cases w <;> cases lk <;> cases lp <;> cases pp <;> cases bw <;> cases br <;>
    cases pw <;> simp [handleCore, IpcEnv.setupOk]

/-- The body stage either stops before the body is written (gate hit or
I/O error) or reaches the guest-invocation stage with the body written and
the write half closed. -/
theorem bodyStage_cases (env : IpcEnv) (guest : Guest) (req : HttpRequest)
    (t : List IpcEvent) :
    (bodyStage env guest req t).2 = t ∨
    (bodyStage env guest req t).2 = t ++ [IpcEvent.readReqBody req.body] ∨
    bodyStage env guest req t =
      invokeStage guest req
        (t ++ [IpcEvent.readReqBody req.body, IpcEvent.writeBody req.body,
          IpcEvent.closeBodyWrite]) := by
  by_cases hgate : body_size req > BODY_SIZE_LIMIT
  · left; simp [bodyStage, hgate]
  rcases hbt : env.bodyToBytesOk with _ | _
  · left; simp [bodyStage, hgate, hbt]
  rcases hbw : env.bodyWriteOk with _ | _
  · right; left; simp [bodyStage, hgate, hbt, hbw]
  · right; right; simp [bodyStage, hgate, hbt, hbw]

/-- The guest-invocation stage either stops before the call (missing
export, wrong shape or type) leaving the trace unchanged, or performs the
call and appends at most the two response-reading steps after it. -/
theorem invokeStage_trace (guest : Guest) (req : HttpRequest)
    (t : List IpcEvent) :
    (invokeStage guest req t).2 = t ∨
    ∃ rest, (invokeStage guest req t).2 =
      t ++ (IpcEvent.invokeGuest LOGS_FD PARTS_FD BODY_WRITE_FD BODY_READ_FD ::
        rest) ∧
      (rest = [] ∨
        ∃ rp rb, rest = [IpcEvent.readRespParts rp, IpcEvent.readRespBody rb]) := by
  obtain ⟨ge, gf, gt, grun⟩ := guest
  cases ge
  · left; simp [invokeStage]
  cases gf
  · left; simp [invokeStage]
  cases gt
  · left; simp [invokeStage]
  rcases hrun : grun req.parts req.body with msg | ⟨opt, rb⟩
  · right
    exact ⟨[], by simp [invokeStage, hrun], Or.inl rfl⟩
  rcases opt with _ | ⟨rst, rbuild⟩
  · right
    exact ⟨[], by simp [invokeStage, hrun], Or.inl rfl⟩
  · right
    refine ⟨[IpcEvent.readRespParts ⟨rst, rbuild⟩, IpcEvent.readRespBody rb],
      ?_, Or.inr ⟨⟨rst, rbuild⟩, rb, rfl⟩⟩
    cases rbuild <;> simp [invokeStage, hrun]

/-- When the export exists and is a function, the invocation stage never
panics. -/
theorem invokeStage_no_panic (guest : Guest) (req : HttpRequest)
    (t : List IpcEvent) (hex : guest.hasExport = true)
    (hfn : guest.isFunc = true) (msg : String) :
    (invokeStage guest req t).1 ≠ .panicked msg := by
  rcases hgt : guest.typedOk with _ | _
  · simp [invokeStage, hex, hfn, hgt]
  rcases hrun : guest.run req.parts req.body with m | ⟨opt, rb⟩
  · simp [invokeStage, hex, hfn, hgt, hrun]
  rcases opt with _ | ⟨rst, rbuild⟩
  · simp [invokeStage, hex, hfn, hgt, hrun]
  · cases rbuild <;> simp [invokeStage, hex, hfn, hgt, hrun]

/-- When the export exists and is a function, the body stage never
panics. -/
theorem bodyStage_no_panic (env : IpcEnv) (guest : Guest) (req : HttpRequest)
    (t : List IpcEvent) (hex : guest.hasExport = true)
    (hfn : guest.isFunc = true) (msg : String) :
    (bodyStage env guest req t).1 ≠ .panicked msg := by
  by_cases hgate : body_size req > BODY_SIZE_LIMIT
  · simp [bodyStage, hgate]
  rcases hbt : env.bodyToBytesOk with _ | _
  · simp [bodyStage, hgate, hbt]
  rcases hbw : env.bodyWriteOk with _ | _
  · simp [bodyStage, hgate, hbt, hbw]
  · simp only [bodyStage, hgate, hbt, hbw]
    simp only [if_neg, if_false]
    exact invokeStage_no_panic guest req _ hex hfn msg

/-- C4 counterexample: with every host-side step succeeding and a 3-byte
request, a guest module that lacks the __SHUTTLE_Axum_call export makes
handle_request panic via `.expect(...)`, so the service produces no HTTP
response at all for that request, rather than the claimed 500. -/
theorem c4_counterexample :
    (handle_request envAllOk guestNoExport smallReq st0).1 =
      .panicked
        "wasm module should be loaded and the router function should be available" ∧
    service_response envAllOk guestNoExport smallReq st0 = none := by
  exact ⟨rfl, rfl⟩

/-- C4 (amended): for every request, when the guest entry-point export
exists and is a function, the service always produces an HTTP response,
and every I/O, codec, or guest-invocation failure (including a guest trap
during the call) yields HTTP 500 with an empty body for that request; a
missing or non-function export instead panics the per-request task, which
produces no response for that request (and nothing beyond it). -/
theorem c4_failures_become_500 (env : IpcEnv) (guest : Guest)
    (req : HttpRequest) (st : HostState) (hex : guest.hasExport = true)
    (hfn : guest.isFunc = true) :
    (∃ r, service_response env guest req st = some r) ∧
    (∀ msg, (handle_request env guest req st).1 = .err msg →
      service_response env guest req st = some { status := 500, body := [] }) := by
  constructor
  · rcases hout : (handle_request env guest req st).1 with r | msg | msg
    · exact ⟨r, by simp [service_response, hout]⟩
    · exact ⟨{ status := 500, body := [] }, by simp [service_response, hout]⟩
    · exfalso
      have hcore : (handleCore env guest req).1 = .panicked msg := hout
      rcases hsu : env.setupOk with _ | _
      · obtain ⟨-, m, hm⟩ := (handleCore_setup env guest req).1 hsu
        rw [hm] at hcore
        exact Outcome.noConfusion hcore
      · rw [(handleCore_setup env guest req).2 hsu] at hcore
        exact bodyStage_no_panic env guest req _ hex hfn msg hcore
  · intro msg hmsg
    simp [service_response, hmsg]

/-- Witness for C4 (amended): a failing parts write with a well-formed
guest yields a 500 response with an empty body. -/
theorem c4_witness :
    (echoGuest [9]).hasExport = true ∧ (echoGuest [9]).isFunc = true ∧
    ((∃ r, service_response
        { envAllOk with partsWriteOk := false } (echoGuest [9]) smallReq st0 =
          some r) ∧
    (∀ msg, (handle_request
        { envAllOk with partsWriteOk := false } (echoGuest [9]) smallReq st0).1 =
          .err msg →
      service_response
        { envAllOk with partsWriteOk := false } (echoGuest [9]) smallReq st0 =
          some { status := 500, body := [] })) :=
  ⟨rfl, rfl,
    c4_failures_become_500 { envAllOk with partsWriteOk := false }
      (echoGuest [9]) smallReq st0 rfl rfl⟩

/-- C5: whenever the guest entry point is invoked, the IPC steps that
completed before it are exactly: request parts written, request body read,
body written to body-write, write half closed; and the only steps after it
are response-parts decode followed by response-body read (both, or neither
when a later step fails). -/
theorem c5_ipc_strict_order (env : IpcEnv) (guest : Guest)
    (req : HttpRequest) (st : HostState)
    (h : guestInvoked (handle_request env guest req st).2.1 = true) :
    ∃ rest, (handle_request env guest req st).2.1 =
      IpcEvent.writeParts req.parts :: IpcEvent.readReqBody req.body ::
      IpcEvent.writeBody req.body :: IpcEvent.closeBodyWrite ::
      IpcEvent.invokeGuest LOGS_FD PARTS_FD BODY_WRITE_FD BODY_READ_FD ::
      rest ∧
      (rest = [] ∨
        ∃ rp rb, rest = [IpcEvent.readRespParts rp, IpcEvent.readRespBody rb]) := by
  have hhr : (handle_request env guest req st).2.1 = (handleCore env guest req).2 := rfl
  rw [hhr] at h ⊢
  rcases hsu : env.setupOk with _ | _
  · obtain ⟨ht, -⟩ := (handleCore_setup env guest req).1 hsu
    rw [ht] at h
    simp [guestInvoked] at h
  · rw [(handleCore_setup env guest req).2 hsu] at h ⊢
    rcases bodyStage_cases env guest req [IpcEvent.writeParts req.parts]
      with h1 | h1 | h1
    · rw [h1] at h
      simp [guestInvoked, IpcEvent.isInvokeGuest] at h
    · rw [h1] at h
      simp [guestInvoked, IpcEvent.isInvokeGuest] at h
    · rw [h1] at h ⊢
      rcases invokeStage_trace guest req
        ([IpcEvent.writeParts req.parts] ++
          [IpcEvent.readReqBody req.body, IpcEvent.writeBody req.body,
            IpcEvent.closeBodyWrite]) with h2 | ⟨rest, h2, hrest⟩
      · rw [h2] at h
        simp [guestInvoked, IpcEvent.isInvokeGuest] at h
      · rw [h2]
        exact ⟨rest, by simp, hrest⟩

/-- Witness for C5 at a concrete run that reaches the guest. -/
theorem c5_witness :
    ∃ rest, (handle_request envAllOk (echoGuest [7]) smallReq st0).2.1 =
      IpcEvent.writeParts smallReq.parts ::
      IpcEvent.readReqBody smallReq.body ::
      IpcEvent.writeBody smallReq.body :: IpcEvent.closeBodyWrite ::
      IpcEvent.invokeGuest LOGS_FD PARTS_FD BODY_WRITE_FD BODY_READ_FD ::
      rest ∧
      (rest = [] ∨
        ∃ rp rb, rest = [IpcEvent.readRespParts rp, IpcEvent.readRespBody rb]) :=
  c5_ipc_strict_order envAllOk (echoGuest [7]) smallReq st0 (by decide)

/-- C3: every handle_request call constructs a brand-new session: the WASI
context, the store and the four channel pairs carry six pairwise-distinct
fresh identities; after the call the host retains only a counter strictly
above every identity of the session, and the session of any later call
(any state whose counter has advanced past this call) shares no identity
with it. -/
theorem c3_fresh_session_per_request (env : IpcEnv) (guest : Guest)
    (req : HttpRequest) (st later : HostState)
    (hlater : st.ctr + 6 ≤ later.ctr) :
    (sessionOf st).ids.Nodup ∧
    (handle_request env guest req st).2.2 = { ctr := st.ctr + 6 } ∧
    (∀ i ∈ (sessionOf st).ids, i < (handle_request env guest req st).2.2.ctr) ∧
    (∀ i ∈ (sessionOf st).ids, i ∉ (sessionOf later).ids) := by
  refine ⟨?_, rfl, ?_, ?_⟩
  · simp [sessionOf, newSession, Session.ids]
  · intro i hi
    simp only [sessionOf, newSession, Session.ids, List.mem_cons,
      List.not_mem_nil, or_false] at hi
    have hctr : (handle_request env guest req st).2.2.ctr = st.ctr + 6 := rfl
    omega
  · intro i hi
    simp only [sessionOf, newSession, Session.ids, List.mem_cons,
      List.not_mem_nil, or_false] at hi ⊢
    push_neg
    omega

/-- Witness for C3 with two consecutive allocation states. -/
theorem c3_witness :
    (0 : Nat) + 6 ≤ 6 ∧
    ((sessionOf st0).ids.Nodup ∧
    (handle_request envAllOk (echoGuest [7]) smallReq st0).2.2 = { ctr := 0 + 6 } ∧
    (∀ i ∈ (sessionOf st0).ids,
      i < (handle_request envAllOk (echoGuest [7]) smallReq st0).2.2.ctr) ∧
    (∀ i ∈ (sessionOf st0).ids, i ∉ (sessionOf { ctr := 6 }).ids)) :=
  ⟨by decide,
    c3_fresh_session_per_request envAllOk (echoGuest [7]) smallReq st0
      { ctr := 6 } (by decide)⟩

/-- C6: subscribe_logs succeeds exactly once. A present receiver is moved
out and returned; once the slot is empty every further call fails with the
already-subscribed error and no lifecycle operation ever refills the
slot. -/
theorem c6_subscribe_logs_at_most_once (s : AxumWasm)
    (c : Except String Router) (nameOk : Bool) :
    (∀ rx, s.logs_rx = some rx →
      s.subscribe_logs = (.ok rx, { s with logs_rx := none }) ∧
      (s.subscribe_logs.2.subscribe_logs).1 = .error .alreadySubscribed) ∧
    (s.logs_rx = none →
      s.subscribe_logs = (.error .alreadySubscribed, s)) ∧
    (s.logs_rx = none →
      (s.load c).2.logs_rx = none ∧ s.start.2.logs_rx = none ∧
      (s.stop nameOk).2.logs_rx = none ∧
      s.subscribe_logs.2.logs_rx = none ∧
      s.serverStops.logs_rx = none) := by
  obtain ⟨r, lrx, ktx⟩ := s
  refine ⟨?_, ?_, ?_⟩
  · intro rx hrx
    simp only at hrx
    subst hrx
    exact ⟨rfl, rfl⟩
  · intro hnone
    simp only at hnone
    subst hnone
    rfl
  · intro hnone
    simp only at hnone
    subst hnone
    rcases c with msg | m <;> rcases r with _ | m0 <;>
      rcases ktx with _ | alive <;> cases nameOk <;>
      simp [AxumWasm.load, AxumWasm.start, AxumWasm.stop,
        AxumWasm.subscribe_logs, AxumWasm.serverStops] <;>
      cases alive <;> simp

/-- Witness for C6: the fresh controller subscribes once and then refuses,
and on an already-subscribed controller the call fails and the slot stays
empty under every operation. -/
theorem c6_witness :
    (AxumWasm.new.subscribe_logs =
        (.ok 0, { AxumWasm.new with logs_rx := none }) ∧
      (AxumWasm.new.subscribe_logs.2.subscribe_logs).1 =
        .error .alreadySubscribed) ∧
    ({ router := none, logs_rx := none, kill_tx := none } : AxumWasm).subscribe_logs =
      (.error .alreadySubscribed,
        { router := none, logs_rx := none, kill_tx := none }) :=
  ⟨(c6_subscribe_logs_at_most_once AxumWasm.new (.ok { moduleId := 1 }) true).1
      0 rfl,
    (c6_subscribe_logs_at_most_once
      { router := none, logs_rx := none, kill_tx := none }
      (.ok { moduleId := 1 }) true).2.1 rfl⟩

/-- C7: start fails with the not-loaded error whenever no module is
stored, and a successful start takes the module out of its slot, so a
second start fails until a new load stores a module again. -/
theorem c7_start_consumes_module (l : Option Nat) (k : Option Bool)
    (m m2 : Router) :
    (AxumWasm.start { router := none, logs_rx := l, kill_tx := k }).1 =
      .error .notLoaded ∧
    AxumWasm.start { router := some m, logs_rx := l, kill_tx := k } =
      (.ok (), { router := none, logs_rx := l, kill_tx := some true }) ∧
    ((AxumWasm.start { router := some m, logs_rx := l, kill_tx := k }).2.start).1 =
      .error .notLoaded ∧
    ((((AxumWasm.start { router := some m, logs_rx := l, kill_tx := k }).2.load
        (.ok m2)).2).start).1 = .ok () := by
  simp [AxumWasm.start, AxumWasm.load]

/-- C8: stop fails with the not-running error when no kill sender is
stored, fails with the shutdown-failed error when the stored sender's
receiver is already gone, and on success consumes the sender so that a
second stop fails with the not-running error. -/
theorem c8_stop_semantics (r : Option Router) (l : Option Nat) :
    AxumWasm.stop { router := r, logs_rx := l, kill_tx := none } true =
      (.error .notRunning, { router := r, logs_rx := l, kill_tx := none }) ∧
    AxumWasm.stop { router := r, logs_rx := l, kill_tx := some false } true =
      (.error .shutdownFailed, { router := r, logs_rx := l, kill_tx := none }) ∧
    AxumWasm.stop { router := r, logs_rx := l, kill_tx := some true } true =
      (.ok (), { router := r, logs_rx := l, kill_tx := none }) ∧
    (AxumWasm.stop
      (AxumWasm.stop { router := r, logs_rx := l, kill_tx := some true } true).2
      true).1 = .error .notRunning := by
  simp [AxumWasm.stop]

/-- C9: a successful load stores the newly compiled module, overwriting
whatever was stored before and leaving the other fields alone; a failed
compile returns the compile error and leaves the whole controller state
unchanged. -/
theorem c9_load_stores_or_preserves (s : AxumWasm) (msg : String)
    (m : Router) :
    s.load (.error msg) = (.error (.compile msg), s) ∧
    s.load (.ok m) = (.ok (), { s with router := some m }) := by
  simp [AxumWasm.load]

/-- C10: a start call on a controller with no stored module still
overwrites the kill sender before detecting the failure; the receiver of
that fresh sender is dropped when start returns, so a subsequent stop
finds a dead sender and fails with the shutdown-failed error, not the
not-running error. -/
theorem c10_failed_start_not_atomic (l : Option Nat) (k : Option Bool) :
    (AxumWasm.start { router := none, logs_rx := l, kill_tx := k }).1 =
      .error .notLoaded ∧
    (AxumWasm.start { router := none, logs_rx := l, kill_tx := k }).2.kill_tx =
      some false ∧
    (AxumWasm.stop
      (AxumWasm.start { router := none, logs_rx := l, kill_tx := k }).2
      true).1 = .error .shutdownFailed ∧
    (AxumWasm.stop
      (AxumWasm.start { router := none, logs_rx := l, kill_tx := k }).2
      true).1 ≠ .error .notRunning := by
  simp [AxumWasm.start, AxumWasm.stop]

end ShuttleAxum
